import Mathlib

/-
  Verification development for the pg_restore_fdw repository.

  The Go sources (database.go, main.go, database_test.go) orchestrate a
  section-based dump/restore of a pair of PostgreSQL databases linked by a
  foreign-data wrapper.  The definitions below are a shallow embedding of
  the pure/control-flow content of those functions:

  * external process invocations are abstracted by an environment function
    mapping each workflow step to success/failure, and the command-argument
    lists the code builds are modelled verbatim;
  * the on-disk file store touched by modifyPreDataFile is modelled as an
    association list from path to content (a write into this store always
    succeeds; the OS-level write-failure branch of the Go code is outside
    the model);
  * strings.Replace(s, old, new, -1) is modelled by replaceAll below
    (leftmost, non-overlapping, all occurrences).  The Go corner case of an
    empty pattern never arises here: every pattern passed by the code
    starts with a literal option keyword such as "dbname ".
-/

set_option autoImplicit false

/-- Connection descriptor, mirroring Go struct DBConfig (database.go). -/
structure DBConfig where
  Host : String
  Port : String
  User : String
  Password : String
  DBName : String
deriving DecidableEq, Repr

/-- Go filepath.Join for a clean, non-empty directory and a relative name. -/
def filepathJoin (dir name : String) : String := dir ++ "/" ++ name

/-- The single-quote character (code point 39) used by the FDW option
tokens; built from its code point to keep source text quote-free. -/
def sQuote : Char := Char.ofNat 39

/-- The literal option token fmt.Sprintf("key v") with v single-quoted,
e.g. the list of characters of: dbname 'moodys'. -/
def optTok (key v : String) : List Char :=
  key.data ++ [' '] ++ [sQuote] ++ v.data ++ [sQuote]

/-- Model of Go strings.Replace(s, pat, new, -1): replace every leftmost
non-overlapping occurrence of pat in s by new.  (For the empty pattern Go
interleaves new between characters; that case is unreachable from the
call sites modelled here, and this model returns s unchanged there.) -/
def replaceAll (pat new : List Char) (s : List Char) : List Char :=
  match s with
  | [] => []
  | c :: rest =>
    if pat.isPrefixOf (c :: rest) && !pat.isEmpty then
      new ++ replaceAll pat new (List.drop (pat.length - 1) rest)
    else
      c :: replaceAll pat new rest
termination_by s.length
decreasing_by
  · simp only [List.length_drop, List.length_cons]
    omega
  · simp only [List.length_cons]
    omega

/-- Decidable occurrence test: pat occurs as a contiguous substring of s. -/
def hasOccur (pat : List Char) (s : List Char) : Bool :=
  match s with
  | [] => pat.isEmpty
  | _ :: rest => pat.isPrefixOf s || hasOccur pat rest

example : replaceAll "ab".data "cd".data "xabyab".data = "xcdycd".data := by
  simp [replaceAll]

example : hasOccur "ab".data "xaby".data = true := by decide

example : replaceAll "aa".data "b".data "aaa".data = "ba".data := by
  simp [replaceAll]

/-- If pat does not occur in s, replaceAll leaves s unchanged. -/
theorem replaceAll_of_not_hasOccur (pat new : List Char) (s : List Char)
    (h : hasOccur pat s = false) : replaceAll pat new s = s := by
  induction s with
  | nil => simp [replaceAll]
  | cons c rest ih =>
    simp only [hasOccur, Bool.or_eq_false_iff] at h
    rw [replaceAll]
    simp [h.1, ih h.2]

/-- The tenant pre-data rewrite (modifyPreDataFile, database.go lines
173-208): five literal strings.Replace substitutions, applied in source
order dbname, host, port, user, password, each replacing all occurrences
of the old single-quoted option token by the new one. -/
def fdwTransform (srcMoodysConfig destMoodysConfig : DBConfig) (content : List Char) : List Char :=
  let m1 := replaceAll (optTok "dbname" srcMoodysConfig.DBName)
      (optTok "dbname" destMoodysConfig.DBName) content
  let m2 := replaceAll (optTok "host" srcMoodysConfig.Host)
      (optTok "host" destMoodysConfig.Host) m1
  let m3 := replaceAll (optTok "port" srcMoodysConfig.Port)
      (optTok "port" destMoodysConfig.Port) m2
  let m4 := replaceAll (optTok "user" srcMoodysConfig.User)
      (optTok "user" destMoodysConfig.User) m3
  let m5 := replaceAll (optTok "password" srcMoodysConfig.Password)
      (optTok "password" destMoodysConfig.Password) m4
  m5

/-- The file store seen by modifyPreDataFile: an association list from
path to file content. -/
def Fs : Type := List (String × List Char)

/-- Read a file (os.ReadFile): none models a read error (missing file). -/
def fsRead (fs : Fs) (p : String) : Option (List Char) :=
  match fs with
  | [] => none
  | (k, v) :: rest => if k = p then some v else fsRead rest p

/-- Write a file in place (os.WriteFile), overwriting existing content. -/
def fsWrite (fs : Fs) (p : String) (c : List Char) : Fs :=
  match fs with
  | [] => [(p, c)]
  | (k, v) :: rest => if k = p then (k, c) :: rest else (k, v) :: fsWrite rest p c

/-- Shallow embedding of modifyPreDataFile (database.go lines 163-219):
read the artifact, apply the five-token FDW rewrite, write the result back
over the same path.  A failed read aborts with an error and the store is
returned untouched.  (The wrapped OS error cause attached by fmt.Errorf,
and the log lines, are outside the model.) -/
def modifyPreDataFile (fs : Fs) (inputFile : String)
    (srcMoodysConfig destMoodysConfig : DBConfig) : Except String Unit × Fs :=
  match fsRead fs inputFile with
  | none => (.error "failed to read pre-data file", fs)
  | some content =>
    let modified := fdwTransform srcMoodysConfig destMoodysConfig content
    (.ok (), fsWrite fs inputFile modified)

theorem fsRead_fsWrite_self (fs : Fs) (p : String) (c : List Char) :
    fsRead (fsWrite fs p c) p = some c := by
  induction fs with
  | nil => simp [fsWrite, fsRead]
  | cons kv rest ih =>
    obtain ⟨k, v⟩ := kv
    by_cases h : k = p <;> simp [fsWrite, fsRead, h, ih]

theorem fsRead_fsWrite_other (fs : Fs) (p q : String) (c : List Char)
    (h : q ≠ p) : fsRead (fsWrite fs p c) q = fsRead fs q := by
  induction fs with
  | nil => simp [fsWrite, fsRead, Ne.symm h]
  | cons kv rest ih =>
    obtain ⟨k, v⟩ := kv
    by_cases hk : k = p
    · subst hk
      simp [fsWrite, fsRead, Ne.symm h]
    · by_cases hq : k = q <;> simp [fsWrite, fsRead, hk, hq, ih, h]

/-- Outcome of a RetryWithBackoff run: the returned value, how many times
the wrapped operation was invoked, and the sequence of backoff sleeps (in
seconds) performed between attempts. -/
structure RetryOut where
  res : Except String Unit
  calls : Nat
  sleeps : List Nat
deriving Repr

/-- The wrapped failure message built by RetryWithBackoff (database.go
lines 63-64): fmt.Errorf with the operation name, the attempt count and
the last underlying error. -/
def retryErrMsg (operation : String) (maxAttempts : Nat) (lastErr : String) : String :=
  "operation " ++ operation ++ " failed after " ++ toString maxAttempts
    ++ " attempts: " ++ lastErr

/-- Loop body of RetryWithBackoff (database.go lines 50-62), structurally
recursive on the number of remaining loop iterations
(maxAttempts - attempt + 1).  fn gives each attempt's outcome
(none = success, some e = failure with error e); a failed attempt other
than the last sleeps attempt*attempt seconds before the next one. -/
def retryAux (operation : String) (maxAttempts : Nat) (fn : Nat → Option String) :
    Nat → Nat → String → RetryOut
  | 0, _, lastErr =>
    { res := .error (retryErrMsg operation maxAttempts lastErr), calls := 0, sleeps := [] }
  | remaining + 1, attempt, _ =>
    match fn attempt with
    | none => { res := .ok (), calls := 1, sleeps := [] }
    | some e =>
      if attempt < maxAttempts then
        let r := retryAux operation maxAttempts fn remaining (attempt + 1) e
        { res := r.res, calls := r.calls + 1, sleeps := (attempt * attempt) :: r.sleeps }
      else
        { res := .error (retryErrMsg operation maxAttempts e), calls := 1, sleeps := [] }

/-- RetryWithBackoff (database.go lines 48-65).  The Go zero-value initial
lastErr (a nil error, only reachable when maxAttempts is 0) is modelled by
the empty string. -/
def RetryWithBackoff (operation : String) (maxAttempts : Nat) (fn : Nat → Option String) : RetryOut :=
  retryAux operation maxAttempts fn maxAttempts 1 ""

example :
    RetryWithBackoff "op" 3 (fun _ => none) =
      { res := .ok (), calls := 1, sleeps := [] } := by rfl

example :
    RetryWithBackoff "op" 3 (fun i => if i ≤ 1 then some "boom" else none) =
      { res := .ok (), calls := 2, sleeps := [1] } := by rfl

example :
    RetryWithBackoff "op" 3 (fun i => some (toString i)) =
      { res := .error (retryErrMsg "op" 3 "3"), calls := 3, sleeps := [1, 4] } := by rfl

/-- getNumCPUs (database.go lines 344-346).  The source hard-codes the
value 1 and leaves the host-CPU query commented out
(return 1 //runtime.NumCPU()); the host's actual processor count is taken
as a parameter so the dependence, or lack of it, can be stated. -/
def getNumCPUs (hostNumCPU : Nat) : Nat := 1

/-- Argument list of the external restore invocation built by one retry
attempt of restoreDatabaseSection (database.go lines 228-254): psql for
the plain-text pre-data artifact, pg_restore with -j workers otherwise. -/
def buildRestoreCmd (config : DBConfig) (inputFile sec : String) (hostNumCPU : Nat) : List String :=
  if sec = "pre-data" then
    ["psql", "-h", config.Host, "-p", config.Port, "-U", config.User,
     "-d", config.DBName, "-f", inputFile]
  else
    ["pg_restore", "-h", config.Host, "-p", config.Port, "-U", config.User,
     "-d", config.DBName, "--no-owner", "--no-privileges",
     "-j", toString (getNumCPUs hostNumCPU), inputFile]

/-- Argument list of the row-count probe issued after a data-section
restore (database.go lines 274-282). -/
def buildCountProbeCmd (config : DBConfig) : List String :=
  ["psql", "-h", config.Host, "-p", config.Port, "-U", config.User,
   "-d", config.DBName, "-t", "-c", "SELECT COUNT(*) FROM customer_transactions;"]

/-- Outcome of one restoreDatabaseSection call: the value it returns, the
retry statistics, and whether the row-count probe was issued. -/
structure RestoreSecOut where
  result : Except String Unit
  restoreCalls : Nat
  sleeps : List Nat
  probeRan : Bool
deriving Repr

/-- Shallow embedding of restoreDatabaseSection (database.go lines
222-296).  attempts gives the outcome of each retried external restore
invocation; probeOutcome is the combined output (or error) of the
row-count probe.  The probe and its outcome are used only for logging in
the source, so probeOutcome does not flow into any returned field; the
source runs the probe whenever the section is "data", after the retry
loop has finished, whatever result it produced. -/
def restoreDatabaseSection (config : DBConfig) (inputFile sec : String)
    (attempts : Nat → Option String) (probeOutcome : Except String String) : RestoreSecOut :=
  let r := RetryWithBackoff ("restore " ++ inputFile) 3 attempts
  let probe := sec = "data"
  { result := r.res, restoreCalls := r.calls, sleeps := r.sleeps, probeRan := probe }

/-- On-disk representation selected by dumpDatabaseSection (database.go
lines 127-134): plain text for pre-data, custom (compressed, parallel
restorable) for the other sections. -/
def dumpSectionFormat (sec : String) : String :=
  if sec = "pre-data" then "p" else "c"

/-- File extension selected by dumpDatabaseSection alongside the format:
".sql" for the plain-text pre-data artifact, ".dump" otherwise. -/
def dumpSectionExt (sec : String) : String :=
  if sec = "pre-data" then ".sql" else ".dump"

/-- Path actually written by dumpDatabaseSection: the caller-supplied stem
with the section-determined extension appended (line 136). -/
def dumpArtifactPath (outputFile sec : String) : String :=
  outputFile ++ dumpSectionExt sec

/-- Argument list of the pg_dump invocation (database.go lines 138-149);
outputFile here is the full artifact path, extension included. -/
def buildDumpCmd (config : DBConfig) (outputFile sec : String) : List String :=
  ["pg_dump", "-h", config.Host, "-p", config.Port, "-U", config.User,
   "--no-owner", "--no-privileges", "-F" ++ dumpSectionFormat sec,
   "--section=" ++ sec, "-f", outputFile, config.DBName]

/-- The fixed section order both workflows iterate over (lines 107, 309). -/
def sectionsList : List String := ["pre-data", "data", "post-data"]

/-- One step of DumpWorkflow, as recorded in its instrumented trace. -/
inductive DStep where
  | mkdirAll (dir : String)
  | dumpSec (dbname : String) (path : String) (sec : String)
deriving DecidableEq, Repr

/-- Inner loop of DumpWorkflow (database.go lines 109-115) for one
database: dump each listed section to outputDir/pfx_sec plus the
section-determined extension, aborting on the first failure.  env decides
whether the external dump invocation of a step succeeds. -/
def dumpDbSections (env : DStep → Bool) (cfg : DBConfig) (pfx outputDir : String) :
    List String → List DStep × Option String
  | [] => ([], none)
  | s :: rest =>
    let outFile := filepathJoin outputDir (pfx ++ "_" ++ s)
    let step := DStep.dumpSec cfg.DBName (dumpArtifactPath outFile s) s
    if env step then
      let out := dumpDbSections env cfg pfx outputDir rest
      (step :: out.1, out.2)
    else
      ([step], some ("failed to dump " ++ pfx ++ " " ++ s))

/-- Shallow embedding of DumpWorkflow (database.go lines 92-118): ensure
the output directory, then dump the three sections of the moodys database
followed by the three sections of the tenant database, aborting on the
first failing step.  Returns the instrumented step trace and the error
outcome. -/
def DumpWorkflow (env : DStep → Bool) (moodysConfig tenantConfig : DBConfig)
    (outputDir : String) : List DStep × Option String :=
  let mk := DStep.mkdirAll outputDir
  if env mk then
    let out1 := dumpDbSections env moodysConfig "moodys" outputDir sectionsList
    match out1.2 with
    | some e => (mk :: out1.1, some e)
    | none =>
      let out2 := dumpDbSections env tenantConfig "tenant" outputDir sectionsList
      (mk :: (out1.1 ++ out2.1), out2.2)
  else
    ([mk], some "failed to create output directory")

/-- One step of RestoreWorkflow, as recorded in its instrumented trace. -/
inductive RStep where
  | createDb (dbname : String)
  | rewriteFdw (path : String)
  | restoreSec (dbname : String) (path : String) (sec : String)
deriving DecidableEq, Repr

/-- Moodys loop of RestoreWorkflow (database.go lines 310-319): restore
each listed section of the destination moodys database from
inputDir/moodys_sec with the section-determined extension, aborting on
the first failure. -/
def moodysRestoreLoop (env : RStep → Bool) (destMoodysConfig : DBConfig) (inputDir : String) :
    List String → List RStep × Option String
  | [] => ([], none)
  | s :: rest =>
    let fileExt := if s = "pre-data" then ".sql" else ".dump"
    let inFile := filepathJoin inputDir ("moodys_" ++ s ++ fileExt)
    let step := RStep.restoreSec destMoodysConfig.DBName inFile s
    if env step then
      let out := moodysRestoreLoop env destMoodysConfig inputDir rest
      (step :: out.1, out.2)
    else
      ([step], some ("failed to restore moodys " ++ s))

/-- Tenant tail loop of RestoreWorkflow (database.go lines 333-338):
restore the remaining tenant sections from inputDir/tenant_sec.dump,
aborting on the first failure. -/
def tenantRestoreLoop (env : RStep → Bool) (destTenantConfig : DBConfig) (inputDir : String) :
    List String → List RStep × Option String
  | [] => ([], none)
  | s :: rest =>
    let inFile := filepathJoin inputDir ("tenant_" ++ s ++ ".dump")
    let step := RStep.restoreSec destTenantConfig.DBName inFile s
    if env step then
      let out := tenantRestoreLoop env destTenantConfig inputDir rest
      (step :: out.1, out.2)
    else
      ([step], some ("failed to restore tenant " ++ s))

/-- Shallow embedding of RestoreWorkflow (database.go lines 299-341):
create the two destination databases, restore the three moodys sections,
rewrite the tenant pre-data artifact, restore tenant pre-data, then the
remaining tenant sections; every failing step aborts immediately.  env
decides each step's success; the trace records the steps actually
executed, in execution order.  srcTenantConfig is accepted and unused,
exactly as in the source. -/
def RestoreWorkflow (env : RStep → Bool)
    (srcMoodysConfig srcTenantConfig destMoodysConfig destTenantConfig : DBConfig)
    (inputDir : String) : List RStep × Option String :=
  let c1 := RStep.createDb destMoodysConfig.DBName
  if env c1 then
    let c2 := RStep.createDb destTenantConfig.DBName
    if env c2 then
      let out1 := moodysRestoreLoop env destMoodysConfig inputDir sectionsList
      match out1.2 with
      | some e => (c1 :: c2 :: out1.1, some e)
      | none =>
        let tenantPreDataFile := filepathJoin inputDir "tenant_pre-data.sql"
        let rw := RStep.rewriteFdw tenantPreDataFile
        if env rw then
          let tp := RStep.restoreSec destTenantConfig.DBName tenantPreDataFile "pre-data"
          if env tp then
            let out2 := tenantRestoreLoop env destTenantConfig inputDir ["data", "post-data"]
            (c1 :: c2 :: (out1.1 ++ rw :: tp :: out2.1), out2.2)
          else
            (c1 :: c2 :: (out1.1 ++ [rw, tp]), some "failed to restore tenant pre-data")
        else
          (c1 :: c2 :: (out1.1 ++ [rw]), some "failed to modify tenant pre-data file")
    else
      ([c1, c2], some "failed to create tenant database")
  else
    ([c1], some "failed to create moodys database")

/-- The complete ordered step sequence of a fully successful
RestoreWorkflow run. -/
def restoreFullOrder (destMoodysConfig destTenantConfig : DBConfig) (inputDir : String) : List RStep :=
  [RStep.createDb destMoodysConfig.DBName,
   RStep.createDb destTenantConfig.DBName,
   RStep.restoreSec destMoodysConfig.DBName (filepathJoin inputDir "moodys_pre-data.sql") "pre-data",
   RStep.restoreSec destMoodysConfig.DBName (filepathJoin inputDir "moodys_data.dump") "data",
   RStep.restoreSec destMoodysConfig.DBName (filepathJoin inputDir "moodys_post-data.dump") "post-data",
   RStep.rewriteFdw (filepathJoin inputDir "tenant_pre-data.sql"),
   RStep.restoreSec destTenantConfig.DBName (filepathJoin inputDir "tenant_pre-data.sql") "pre-data",
   RStep.restoreSec destTenantConfig.DBName (filepathJoin inputDir "tenant_data.dump") "data",
   RStep.restoreSec destTenantConfig.DBName (filepathJoin inputDir "tenant_post-data.dump") "post-data"]

example (dm dt : DBConfig) (dir : String) :
    RestoreWorkflow (fun _ => true) dm dm dm dt dir =
      (restoreFullOrder dm dt dir, none) := by
  simp [RestoreWorkflow, moodysRestoreLoop, tenantRestoreLoop, sectionsList, restoreFullOrder]

/-- Claim C10: if reading the artifact file fails, modifyPreDataFile
returns an error immediately and performs no write, leaving the file
store unchanged. -/
theorem modifyPreDataFile_read_failure_no_write (fs : Fs) (f : String)
    (srcCfg destCfg : DBConfig) (h : fsRead fs f = none) :
    modifyPreDataFile fs f srcCfg destCfg = (.error "failed to read pre-data file", fs) := by
  simp [modifyPreDataFile, h]

/-- Sample descriptors for the source environment, as in the test file. -/
def cfgSrcSample : DBConfig :=
  { Host := "localhost", Port := "5432", User := "postgres",
    Password := "your_new_password", DBName := "moodys" }

/-- Sample descriptors for the destination environment, as in the test file. -/
def cfgDestSample : DBConfig :=
  { Host := "localhost", Port := "5432", User := "postgres",
    Password := "your_new_password", DBName := "moodys_restore_test" }

/-- Witness for C10: on an empty file store the read fails and the store
comes back untouched. -/
theorem modifyPreDataFile_read_failure_no_write_witness :
    fsRead [] "dump_test/tenant_pre-data.sql" = none ∧
    modifyPreDataFile [] "dump_test/tenant_pre-data.sql" cfgSrcSample cfgDestSample =
      (.error "failed to read pre-data file", []) :=
  ⟨rfl, modifyPreDataFile_read_failure_no_write [] "dump_test/tenant_pre-data.sql"
      cfgSrcSample cfgDestSample rfl⟩

/-- Claim C7: on a readable artifact, modifyPreDataFile succeeds, replaces
the file content in place with exactly the five literal option-token
substitutions (dbname, host, port, user, password, in that source order,
all occurrences each), touches no other file, and the transformation is
pure substring substitution independent of any surrounding grammar. -/
theorem modifyPreDataFile_rewrites_in_place (fs : Fs) (f : String)
    (srcCfg destCfg : DBConfig) (c : List Char) (h : fsRead fs f = some c) :
    (modifyPreDataFile fs f srcCfg destCfg).1 = .ok () ∧
    fsRead (modifyPreDataFile fs f srcCfg destCfg).2 f = some (fdwTransform srcCfg destCfg c) ∧
    (∀ g, g ≠ f → fsRead (modifyPreDataFile fs f srcCfg destCfg).2 g = fsRead fs g) ∧
    fdwTransform srcCfg destCfg c =
      replaceAll (optTok "password" srcCfg.Password) (optTok "password" destCfg.Password)
        (replaceAll (optTok "user" srcCfg.User) (optTok "user" destCfg.User)
          (replaceAll (optTok "port" srcCfg.Port) (optTok "port" destCfg.Port)
            (replaceAll (optTok "host" srcCfg.Host) (optTok "host" destCfg.Host)
              (replaceAll (optTok "dbname" srcCfg.DBName) (optTok "dbname" destCfg.DBName) c)))) := by
  refine ⟨?_, ?_, ?_, rfl⟩
  · simp [modifyPreDataFile, h]
  · simp [modifyPreDataFile, h, fsRead_fsWrite_self]
  · intro g hg
    simp [modifyPreDataFile, h, fsRead_fsWrite_other _ _ _ _ hg]

/-- A one-file store holding the tenant pre-data artifact used to witness
C7: a foreign-server option list naming the source moodys database. -/
def witnessFs : Fs :=
  [("dump_test/tenant_pre-data.sql",
    "OPTIONS (".data ++ optTok "dbname" "moodys" ++ ", ".data
      ++ optTok "host" "localhost" ++ ")".data)]

/-- Witness for C7: the rewrite turns the dbname and host options of the
stored artifact into the destination values and reports success. -/
theorem modifyPreDataFile_rewrites_in_place_witness :
    fsRead witnessFs "dump_test/tenant_pre-data.sql" =
      some ("OPTIONS (".data ++ optTok "dbname" "moodys" ++ ", ".data
        ++ optTok "host" "localhost" ++ ")".data) ∧
    (modifyPreDataFile witnessFs "dump_test/tenant_pre-data.sql" cfgSrcSample cfgDestSample).1 =
      .ok () := by
  refine ⟨by rfl, (modifyPreDataFile_rewrites_in_place witnessFs "dump_test/tenant_pre-data.sql"
    cfgSrcSample cfgDestSample _ (by rfl)).1⟩

/-- Source descriptor for the C6 counterexample: moodys database named a. -/
def ceSrc : DBConfig :=
  { Host := "h", Port := "p", User := "u", Password := "w", DBName := "a" }

/-- Destination descriptor for the C6 counterexample: its database name
contains a single-quote followed by another dbname option, so the
replacement text itself contains the old token again. -/
def ceDest : DBConfig :=
  { Host := "h", Port := "p", User := "u", Password := "w",
    DBName := String.mk ("a".data ++ [sQuote, ' '] ++ "dbname ".data ++ [sQuote] ++ "a".data) }

/-- Artifact content for the C6 counterexample: exactly the old dbname
option token. -/
def ceContent : List Char := optTok "dbname" "a"

example : fdwTransform ceSrc ceDest ceContent = optTok "dbname" ceDest.DBName := by
  simp [fdwTransform, ceSrc, ceDest, ceContent, optTok, sQuote, replaceAll]

/-- Counterexample to claim C6 as stated: for this content and (old, new)
descriptor pair, after one rewrite the old dbname token still occurs in
the file, and a second rewrite with the same arguments changes the file
again instead of leaving it byte-identical. -/
theorem rewrite_not_idempotent_counterexample :
    hasOccur (optTok "dbname" ceSrc.DBName) (fdwTransform ceSrc ceDest ceContent) = true ∧
    fdwTransform ceSrc ceDest (fdwTransform ceSrc ceDest ceContent) ≠
      fdwTransform ceSrc ceDest ceContent := by
  have h1 : fdwTransform ceSrc ceDest ceContent = optTok "dbname" ceDest.DBName := by
    simp [fdwTransform, ceSrc, ceDest, ceContent, optTok, sQuote, replaceAll]
  rw [h1]
  constructor
  · decide
  · simp [fdwTransform, ceSrc, ceDest, optTok, sQuote, replaceAll]

/-- Claim C6 (amended): once the rewritten artifact contains no further
occurrence of any of the five old option tokens — the distinctive-value
assumption the design relies on — re-applying the rewrite with the same
(old, new) descriptor pair leaves the content byte-identical. -/
theorem fdwTransform_idempotent_of_no_residual (srcCfg destCfg : DBConfig) (c : List Char)
    (h1 : hasOccur (optTok "dbname" srcCfg.DBName) (fdwTransform srcCfg destCfg c) = false)
    (h2 : hasOccur (optTok "host" srcCfg.Host) (fdwTransform srcCfg destCfg c) = false)
    (h3 : hasOccur (optTok "port" srcCfg.Port) (fdwTransform srcCfg destCfg c) = false)
    (h4 : hasOccur (optTok "user" srcCfg.User) (fdwTransform srcCfg destCfg c) = false)
    (h5 : hasOccur (optTok "password" srcCfg.Password) (fdwTransform srcCfg destCfg c) = false) :
    fdwTransform srcCfg destCfg (fdwTransform srcCfg destCfg c) = fdwTransform srcCfg destCfg c := by
  conv_lhs => rw [fdwTransform]
  rw [replaceAll_of_not_hasOccur _ _ _ h1, replaceAll_of_not_hasOccur _ _ _ h2,
    replaceAll_of_not_hasOccur _ _ _ h3, replaceAll_of_not_hasOccur _ _ _ h4,
    replaceAll_of_not_hasOccur _ _ _ h5]

/-- Artifact content witnessing the amended C6: a server option list
naming the source moodys database and host. -/
def idemWitnessContent : List Char :=
  "OPTIONS (".data ++ optTok "dbname" "moodys" ++ ", ".data
    ++ optTok "host" "localhost" ++ ")".data

/-- A destination descriptor differing from cfgSrcSample in every field,
used to witness the amended C6. -/
def idemWitnessDest : DBConfig :=
  { Host := "dest.example", Port := "5433", User := "admin",
    Password := "s3cret", DBName := "moodys_restore_test" }

/-- The value of the first rewrite on the C6 witness content: the dbname
and host options now name the destination environment. -/
theorem idemWitness_transform_eq :
    fdwTransform cfgSrcSample idemWitnessDest idemWitnessContent =
      "OPTIONS (".data ++ optTok "dbname" "moodys_restore_test" ++ ", ".data
        ++ optTok "host" "dest.example" ++ ")".data := by
  simp [fdwTransform, cfgSrcSample, idemWitnessDest, idemWitnessContent, optTok, sQuote, replaceAll]

/-- Witness for the amended C6: on the sample artifact the five residual
occurrence checks hold and the second rewrite is the identity. -/
theorem fdwTransform_idempotent_of_no_residual_witness :
    hasOccur (optTok "dbname" cfgSrcSample.DBName)
      (fdwTransform cfgSrcSample idemWitnessDest idemWitnessContent) = false ∧
    fdwTransform cfgSrcSample idemWitnessDest
        (fdwTransform cfgSrcSample idemWitnessDest idemWitnessContent) =
      fdwTransform cfgSrcSample idemWitnessDest idemWitnessContent := by
  constructor
  · rw [idemWitness_transform_eq]
    decide
  · exact fdwTransform_idempotent_of_no_residual cfgSrcSample idemWitnessDest idemWitnessContent
      (by rw [idemWitness_transform_eq]; decide)
      (by rw [idemWitness_transform_eq]; decide)
      (by rw [idemWitness_transform_eq]; decide)
      (by rw [idemWitness_transform_eq]; decide)
      (by rw [idemWitness_transform_eq]; decide)

/-- An operation that fails on exactly the first attempt and succeeds
from the second attempt on: k = 1 consecutive failures before success. -/
def failOnceFn : Nat → Option String :=
  fun i => if i ≤ 1 then some "connection refused" else none

/-- Counterexample to claim C4 as stated: an operation failing k = 1
consecutive times before succeeding is invoked 2 times by RetryWithBackoff
with maximum 3 attempts, not min(k, 3) = 1 times. -/
theorem retry_invocation_count_counterexample :
    (RetryWithBackoff "restore dump_test/tenant_data.dump" 3 failOnceFn).calls ≠ min 1 3 ∧
    (RetryWithBackoff "restore dump_test/tenant_data.dump" 3 failOnceFn).calls = 2 ∧
    (RetryWithBackoff "restore dump_test/tenant_data.dump" 3 failOnceFn).sleeps = [1] := by
  refine ⟨by decide, rfl, rfl⟩

/-- Claim C4 (amended): for every wrapped operation that fails k
consecutive times before succeeding, RetryWithBackoff with maximum 3
attempts invokes it exactly min(k + 1, 3) times, sleeps 1 then 4 time
units between the first three attempts respectively (exactly the first
min(k, 2) of those backoffs occur), and never sleeps after the last
attempt. -/
theorem retry_invocation_count (op : String) (fn : Nat → Option String) (k : Nat)
    (hfail : ∀ i, 1 ≤ i → i ≤ k → (fn i).isSome = true)
    (hsucc : ∀ i, k < i → fn i = none) :
    (RetryWithBackoff op 3 fn).calls = min (k + 1) 3 ∧
    (RetryWithBackoff op 3 fn).sleeps = List.take (min k 2) [1, 4] := by
  match k with
  | 0 =>
    have h1 := hsucc 1 (by omega)
    simp [RetryWithBackoff, retryAux, h1]
  | 1 =>
    obtain ⟨e1, he1⟩ := Option.isSome_iff_exists.mp (hfail 1 (by omega) (by omega))
    have h2 := hsucc 2 (by omega)
    simp [RetryWithBackoff, retryAux, he1, h2]
  | n + 2 =>
    obtain ⟨e1, he1⟩ := Option.isSome_iff_exists.mp (hfail 1 (by omega) (by omega))
    obtain ⟨e2, he2⟩ := Option.isSome_iff_exists.mp (hfail 2 (by omega) (by omega))
    rcases h3 : fn 3 with _ | e3 <;>
      simp [RetryWithBackoff, retryAux, he1, he2, h3]

/-- Witness for the amended C4 at k = 1: two invocations and a single
one-second backoff. -/
theorem retry_invocation_count_witness :
    (RetryWithBackoff "restore dump_test/moodys_data.dump" 3 failOnceFn).calls = min (1 + 1) 3 ∧
    (RetryWithBackoff "restore dump_test/moodys_data.dump" 3 failOnceFn).sleeps =
      List.take (min 1 2) [1, 4] :=
  retry_invocation_count "restore dump_test/moodys_data.dump" failOnceFn 1
    (fun i h1 h2 => by
      have : i = 1 := by omega
      subst this
      rfl)
    (fun i hi => by
      unfold failOnceFn
      rw [if_neg (by omega)])

/-- Claim C5: RetryWithBackoff returns success on the first non-failing
attempt (and stops invoking the operation), and when every one of the 3
attempts fails it returns the wrapped failure naming the operation and
the attempt count with the last underlying error attached. -/
theorem retry_result_spec (op : String) (fn : Nat → Option String) :
    (fn 1 = none →
      (RetryWithBackoff op 3 fn).res = .ok () ∧ (RetryWithBackoff op 3 fn).calls = 1) ∧
    (∀ e1, fn 1 = some e1 → fn 2 = none →
      (RetryWithBackoff op 3 fn).res = .ok () ∧ (RetryWithBackoff op 3 fn).calls = 2) ∧
    (∀ e1 e2, fn 1 = some e1 → fn 2 = some e2 → fn 3 = none →
      (RetryWithBackoff op 3 fn).res = .ok () ∧ (RetryWithBackoff op 3 fn).calls = 3) ∧
    (∀ e1 e2 e3, fn 1 = some e1 → fn 2 = some e2 → fn 3 = some e3 →
      (RetryWithBackoff op 3 fn).res = .error (retryErrMsg op 3 e3)) := by
  refine ⟨?_, ?_, ?_, ?_⟩ <;> intros <;> simp [RetryWithBackoff, retryAux, *]

/-- Witness for C5: an operation that fails every attempt yields the
wrapped failure naming the operation, the 3 attempts, and the last
underlying error. -/
theorem retry_result_spec_witness :
    (RetryWithBackoff "restore dump_test/tenant_post-data.dump" 3
        (fun i => some (toString i))).res =
      .error (retryErrMsg "restore dump_test/tenant_post-data.dump" 3 "3") :=
  (retry_result_spec "restore dump_test/tenant_post-data.dump"
    (fun i => some (toString i))).2.2.2 "1" "2" "3" rfl rfl rfl

/-- Claim C3 (code divergence): getNumCPUs hard-codes 1 — the host-CPU
query is commented out in the source — so every row-data and post-schema
restore invocation passes -j 1 whatever the host's available processing
units; in particular on a host with 8 processing units the worker count
is 1, not 8. -/
theorem restore_worker_count_hardcoded_one :
    (∀ (hostNumCPU : Nat) (cfg : DBConfig) (f : String),
      getNumCPUs hostNumCPU = 1 ∧
      buildRestoreCmd cfg f "data" hostNumCPU =
        ["pg_restore", "-h", cfg.Host, "-p", cfg.Port, "-U", cfg.User,
         "-d", cfg.DBName, "--no-owner", "--no-privileges", "-j", "1", f] ∧
      buildRestoreCmd cfg f "post-data" hostNumCPU =
        ["pg_restore", "-h", cfg.Host, "-p", cfg.Port, "-U", cfg.User,
         "-d", cfg.DBName, "--no-owner", "--no-privileges", "-j", "1", f]) ∧
    getNumCPUs 8 ≠ 8 := by
  refine ⟨fun hostNumCPU cfg f => ⟨rfl, ?_, ?_⟩, by decide⟩ <;>
    · simp only [buildRestoreCmd, getNumCPUs]
      rfl


/-- Every artifact path recorded by the per-database dump loop carries
exactly the extension determined by its recorded section. -/
theorem dumpDbSections_path_shape (env : DStep → Bool) (cfg2 : DBConfig)
    (pfx dir : String) (secs : List String) (dbn p sec : String)
    (hmem : DStep.dumpSec dbn p sec ∈ (dumpDbSections env cfg2 pfx dir secs).1) :
    ∃ stem2, p = stem2 ++ dumpSectionExt sec := by
  induction secs with
  | nil => simp [dumpDbSections] at hmem
  | cons s0 rest ih =>
    simp only [dumpDbSections] at hmem
    by_cases he : env (DStep.dumpSec cfg2.DBName
        (dumpArtifactPath (filepathJoin dir (pfx ++ "_" ++ s0)) s0) s0)
    · rw [if_pos he] at hmem
      rcases List.mem_cons.mp hmem with hhead | htail
      · obtain ⟨h1, h2, h3⟩ := DStep.dumpSec.inj hhead
        subst h3
        exact ⟨filepathJoin dir (pfx ++ "_" ++ sec), h2⟩
      · exact ih htail
    · rw [if_neg he] at hmem
      obtain ⟨h1, h2, h3⟩ := DStep.dumpSec.inj (List.mem_singleton.mp hmem)
      subst h3
      exact ⟨filepathJoin dir (pfx ++ "_" ++ sec), h2⟩

/-- Claim C8: dumpDatabaseSection selects the artifact representation as
a function of the section alone: pre-data is dumped plain-text (-Fp) to a
path ending in .sql, and every other section is dumped in the compressed
parallel-restorable custom format (-Fc) to a path ending in .dump; and in
any dump workflow trace every recorded artifact path, for either database
role, carries exactly the extension its recorded section determines. -/
theorem dump_representation_by_section (cfg : DBConfig) (stem s : String) :
    dumpArtifactPath stem "pre-data" = stem ++ ".sql" ∧
    dumpSectionFormat "pre-data" = "p" ∧
    (s ≠ "pre-data" →
      dumpArtifactPath stem s = stem ++ ".dump" ∧ dumpSectionFormat s = "c") ∧
    (∀ (env : DStep → Bool) (m t : DBConfig) (dir dbn p sec : String),
      DStep.dumpSec dbn p sec ∈ (DumpWorkflow env m t dir).1 →
      ∃ stem2, p = stem2 ++ dumpSectionExt sec) := by
  refine ⟨rfl, rfl, fun h => ?_, ?_⟩
  · constructor <;> simp [dumpArtifactPath, dumpSectionExt, dumpSectionFormat, h]
  · intro env m t dir dbn p sec hmem
    simp only [DumpWorkflow] at hmem
    by_cases hmk : env (DStep.mkdirAll dir)
    · rw [if_pos hmk] at hmem
      rcases h1 : (dumpDbSections env m "moodys" dir sectionsList).2 with _ | e
      · rw [h1] at hmem
        simp only [List.mem_cons, List.mem_append] at hmem
        rcases hmem with habs | htr1 | htr2
        · exact absurd habs (by simp)
        · exact dumpDbSections_path_shape env m "moodys" dir sectionsList dbn p sec htr1
        · exact dumpDbSections_path_shape env t "tenant" dir sectionsList dbn p sec htr2
      · rw [h1] at hmem
        simp only [List.mem_cons] at hmem
        rcases hmem with habs | htr1
        · exact absurd habs (by simp)
        · exact dumpDbSections_path_shape env m "moodys" dir sectionsList dbn p sec htr1
    · rw [if_neg hmk] at hmem
      simp at hmem

/-- Witness for C8 at the data section and a concrete path stem. -/
theorem dump_representation_by_section_witness :
    ("data" : String) ≠ "pre-data" ∧
    dumpArtifactPath "dump_test/moodys_data" "data" = "dump_test/moodys_data" ++ ".dump" ∧
    dumpSectionFormat "data" = "c" :=
  ⟨by decide,
   (dump_representation_by_section cfgSrcSample "dump_test/moodys_data" "data").2.2.1
     (by decide)⟩

/-- Counterexample to the only-after-success part of claim C9: with every
restore attempt of a data-section restore failing, the row-count probe
still runs, while the returned value is the wrapped retry failure. -/
theorem probe_runs_after_failed_restore_counterexample :
    (restoreDatabaseSection cfgDestSample "dump_test/tenant_data.dump" "data"
        (fun _ => some "connection refused") (.ok "100000")).probeRan = true ∧
    (restoreDatabaseSection cfgDestSample "dump_test/tenant_data.dump" "data"
        (fun _ => some "connection refused") (.ok "100000")).result =
      .error (retryErrMsg "restore dump_test/tenant_data.dump" 3 "connection refused") := by
  exact ⟨rfl, rfl⟩

/-- Claim C9 (amended): the value restoreDatabaseSection returns is
exactly the result of the retried restore — the row-count probe and its
outcome never influence it — and the probe is issued precisely when the
section is the row-data section, whatever the restore outcome (in the
source it runs even after a failed restore). -/
theorem restore_result_independent_of_probe (cfg : DBConfig) (f s : String)
    (attempts : Nat → Option String) (probe1 probe2 : Except String String) :
    (restoreDatabaseSection cfg f s attempts probe1).result =
      (RetryWithBackoff ("restore " ++ f) 3 attempts).res ∧
    (restoreDatabaseSection cfg f s attempts probe1).result =
      (restoreDatabaseSection cfg f s attempts probe2).result ∧
    (restoreDatabaseSection cfg f s attempts probe1).probeRan = decide (s = "data") ∧
    (restoreDatabaseSection cfg f s attempts probe1).restoreCalls =
      (RetryWithBackoff ("restore " ++ f) 3 attempts).calls := by
  exact ⟨rfl, rfl, rfl, rfl⟩

/-- The artifact paths written by a dump trace: the target path of every
dump step, in order. -/
def dumpWrittenPaths (tr : List DStep) : List String :=
  tr.filterMap (fun stp => match stp with
    | DStep.dumpSec _ p _ => some p
    | _ => none)

/-- The artifact paths read by a restore trace: the source path of every
section restore and of the FDW rewrite, in order. -/
def restoreReadPaths (tr : List RStep) : List String :=
  tr.filterMap (fun stp => match stp with
    | RStep.restoreSec _ p _ => some p
    | RStep.rewriteFdw p => some p
    | _ => none)

/-- Claim C2: a full dump run writes, for each role r in {moodys, tenant}
and section s, exactly the file r_s.sql (pre-data) or r_s.dump (data,
post-data) directly under the output directory, and a full restore run
reads artifacts under exactly those same names from the input directory
(the tenant pre-data artifact twice: once to rewrite it, once to restore
it), so the path sets coincide. -/
theorem artifact_naming_roundtrip (m t sm st dm dt : DBConfig) (dir : String) :
    dumpWrittenPaths (DumpWorkflow (fun _ => true) m t dir).1 =
      List.map (filepathJoin dir)
        ["moodys_pre-data.sql", "moodys_data.dump", "moodys_post-data.dump",
         "tenant_pre-data.sql", "tenant_data.dump", "tenant_post-data.dump"] ∧
    restoreReadPaths (RestoreWorkflow (fun _ => true) sm st dm dt dir).1 =
      List.map (filepathJoin dir)
        ["moodys_pre-data.sql", "moodys_data.dump", "moodys_post-data.dump",
         "tenant_pre-data.sql", "tenant_pre-data.sql", "tenant_data.dump",
         "tenant_post-data.dump"] ∧
    (∀ p, p ∈ restoreReadPaths (RestoreWorkflow (fun _ => true) sm st dm dt dir).1 ↔
      p ∈ dumpWrittenPaths (DumpWorkflow (fun _ => true) m t dir).1) := by
  have hd : dumpWrittenPaths (DumpWorkflow (fun _ => true) m t dir).1 =
      List.map (filepathJoin dir)
        ["moodys_pre-data.sql", "moodys_data.dump", "moodys_post-data.dump",
         "tenant_pre-data.sql", "tenant_data.dump", "tenant_post-data.dump"] := by
    simp [DumpWorkflow, dumpDbSections, sectionsList, dumpWrittenPaths,
      dumpArtifactPath, dumpSectionExt, filepathJoin, String.append_assoc]
  have hr : restoreReadPaths (RestoreWorkflow (fun _ => true) sm st dm dt dir).1 =
      List.map (filepathJoin dir)
        ["moodys_pre-data.sql", "moodys_data.dump", "moodys_post-data.dump",
         "tenant_pre-data.sql", "tenant_pre-data.sql", "tenant_data.dump",
         "tenant_post-data.dump"] := by
    simp [RestoreWorkflow, moodysRestoreLoop, tenantRestoreLoop, sectionsList,
      restoreReadPaths, filepathJoin, String.append_assoc]
  refine ⟨hd, hr, fun p => ?_⟩
  rw [hd, hr]
  simp only [List.map, List.mem_cons, List.not_mem_nil, or_false]
  tauto

/-- Joining two names under the same directory yields equal paths only
for equal names. -/
theorem filepathJoin_inj (dir a b : String) :
    filepathJoin dir a = filepathJoin dir b ↔ a = b := by
  constructor
  · intro h
    have hd : (dir ++ "/").data ++ a.data = (dir ++ "/").data ++ b.data :=
      congrArg String.data h
    exact String.ext (List.append_cancel_left hd)
  · intro h
    rw [h]

example : filepathJoin "d" "tenant_pre-data.sql" ≠ filepathJoin "d" "moodys_pre-data.sql" := by
  simp [filepathJoin_inj]

/-- Claim C1: every RestoreWorkflow run executes a prefix of the fixed
step order — create reference db, create tenant db, restore the three
reference sections pre-data/data/post-data, rewrite the tenant
schema-section artifact, restore tenant pre-data, data, post-data — a
successful run executes exactly that order in full, a failing run stops
at its first failing step with no later step executed, and whenever any
tenant-section restore appears in the trace all three reference-section
restores already do. -/
theorem restoreWorkflow_step_order (env : RStep → Bool)
    (sm st dm dt : DBConfig) (dir : String) :
    (∃ n, (RestoreWorkflow env sm st dm dt dir).1 = (restoreFullOrder dm dt dir).take n) ∧
    ((RestoreWorkflow env sm st dm dt dir).2 = none →
      (RestoreWorkflow env sm st dm dt dir).1 = restoreFullOrder dm dt dir ∧
      ∀ x ∈ (RestoreWorkflow env sm st dm dt dir).1, env x = true) ∧
    ((RestoreWorkflow env sm st dm dt dir).2 ≠ none →
      ∃ x, (RestoreWorkflow env sm st dm dt dir).1.getLast? = some x ∧ env x = false) ∧
    (∀ x ∈ (RestoreWorkflow env sm st dm dt dir).1.dropLast, env x = true) ∧
    ((RStep.restoreSec dt.DBName (filepathJoin dir "tenant_pre-data.sql") "pre-data"
        ∈ (RestoreWorkflow env sm st dm dt dir).1 ∨
      RStep.restoreSec dt.DBName (filepathJoin dir "tenant_data.dump") "data"
        ∈ (RestoreWorkflow env sm st dm dt dir).1 ∨
      RStep.restoreSec dt.DBName (filepathJoin dir "tenant_post-data.dump") "post-data"
        ∈ (RestoreWorkflow env sm st dm dt dir).1) →
      RStep.restoreSec dm.DBName (filepathJoin dir "moodys_pre-data.sql") "pre-data"
        ∈ (RestoreWorkflow env sm st dm dt dir).1 ∧
      RStep.restoreSec dm.DBName (filepathJoin dir "moodys_data.dump") "data"
        ∈ (RestoreWorkflow env sm st dm dt dir).1 ∧
      RStep.restoreSec dm.DBName (filepathJoin dir "moodys_post-data.dump") "post-data"
        ∈ (RestoreWorkflow env sm st dm dt dir).1) := by
  cases h1 : env (RStep.createDb dm.DBName) with
  | false =>
    have hw : RestoreWorkflow env sm st dm dt dir =
        ([RStep.createDb dm.DBName], some "failed to create moodys database") := by
      simp [RestoreWorkflow, h1]
    rw [hw]
    refine ⟨⟨1, by simp [restoreFullOrder]⟩, by simp,
      fun _ => ⟨RStep.createDb dm.DBName, by simp, h1⟩, by simp, ?_⟩
    rintro (hmem | hmem | hmem) <;> simp at hmem
  | true =>
  cases h2 : env (RStep.createDb dt.DBName) with
  | false =>
    have hw : RestoreWorkflow env sm st dm dt dir =
        ([RStep.createDb dm.DBName, RStep.createDb dt.DBName],
         some "failed to create tenant database") := by
      simp [RestoreWorkflow, h1, h2]
    rw [hw]
    refine ⟨⟨2, by simp [restoreFullOrder]⟩, by simp,
      fun _ => ⟨RStep.createDb dt.DBName, by simp, h2⟩, ?_, ?_⟩
    · intro x hx
      simp at hx
      subst hx
      exact h1
    · rintro (hmem | hmem | hmem) <;> simp at hmem
  | true =>
  cases h3 : env (RStep.restoreSec dm.DBName (filepathJoin dir "moodys_pre-data.sql") "pre-data") with
  | false =>
    have hw : RestoreWorkflow env sm st dm dt dir =
        ([RStep.createDb dm.DBName, RStep.createDb dt.DBName,
          RStep.restoreSec dm.DBName (filepathJoin dir "moodys_pre-data.sql") "pre-data"],
         some "failed to restore moodys pre-data") := by
      simp [RestoreWorkflow, moodysRestoreLoop, sectionsList, h1, h2, h3]
    rw [hw]
    refine ⟨⟨3, by simp [restoreFullOrder]⟩, by simp,
      fun _ => ⟨RStep.restoreSec dm.DBName (filepathJoin dir "moodys_pre-data.sql") "pre-data",
        by simp, h3⟩, ?_, ?_⟩
    · intro x hx
      simp at hx
      rcases hx with rfl | rfl <;> assumption
    · rintro (hmem | hmem | hmem) <;> simp [filepathJoin_inj] at hmem
  | true =>
  cases h4 : env (RStep.restoreSec dm.DBName (filepathJoin dir "moodys_data.dump") "data") with
  | false =>
    have hw : RestoreWorkflow env sm st dm dt dir =
        ([RStep.createDb dm.DBName, RStep.createDb dt.DBName,
          RStep.restoreSec dm.DBName (filepathJoin dir "moodys_pre-data.sql") "pre-data",
          RStep.restoreSec dm.DBName (filepathJoin dir "moodys_data.dump") "data"],
         some "failed to restore moodys data") := by
      simp [RestoreWorkflow, moodysRestoreLoop, sectionsList, h1, h2, h3, h4]
    rw [hw]
    refine ⟨⟨4, by simp [restoreFullOrder]⟩, by simp,
      fun _ => ⟨RStep.restoreSec dm.DBName (filepathJoin dir "moodys_data.dump") "data",
        by simp, h4⟩, ?_, ?_⟩
    · intro x hx
      simp at hx
      rcases hx with rfl | rfl | rfl <;> assumption
    · rintro (hmem | hmem | hmem) <;> simp [filepathJoin_inj] at hmem
  | true =>
  cases h5 : env (RStep.restoreSec dm.DBName (filepathJoin dir "moodys_post-data.dump") "post-data") with
  | false =>
    have hw : RestoreWorkflow env sm st dm dt dir =
        ([RStep.createDb dm.DBName, RStep.createDb dt.DBName,
          RStep.restoreSec dm.DBName (filepathJoin dir "moodys_pre-data.sql") "pre-data",
          RStep.restoreSec dm.DBName (filepathJoin dir "moodys_data.dump") "data",
          RStep.restoreSec dm.DBName (filepathJoin dir "moodys_post-data.dump") "post-data"],
         some "failed to restore moodys post-data") := by
      simp [RestoreWorkflow, moodysRestoreLoop, sectionsList, h1, h2, h3, h4, h5]
    rw [hw]
    refine ⟨⟨5, by simp [restoreFullOrder]⟩, by simp,
      fun _ => ⟨RStep.restoreSec dm.DBName (filepathJoin dir "moodys_post-data.dump") "post-data",
        by simp, h5⟩, ?_, fun _ => ⟨by simp, by simp, by simp⟩⟩
    intro x hx
    simp at hx
    rcases hx with rfl | rfl | rfl | rfl <;> assumption
  | true =>
  cases h6 : env (RStep.rewriteFdw (filepathJoin dir "tenant_pre-data.sql")) with
  | false =>
    have hw : RestoreWorkflow env sm st dm dt dir =
        ([RStep.createDb dm.DBName, RStep.createDb dt.DBName,
          RStep.restoreSec dm.DBName (filepathJoin dir "moodys_pre-data.sql") "pre-data",
          RStep.restoreSec dm.DBName (filepathJoin dir "moodys_data.dump") "data",
          RStep.restoreSec dm.DBName (filepathJoin dir "moodys_post-data.dump") "post-data",
          RStep.rewriteFdw (filepathJoin dir "tenant_pre-data.sql")],
         some "failed to modify tenant pre-data file") := by
      simp [RestoreWorkflow, moodysRestoreLoop, sectionsList, h1, h2, h3, h4, h5, h6]
    rw [hw]
    refine ⟨⟨6, by simp [restoreFullOrder]⟩, by simp,
      fun _ => ⟨RStep.rewriteFdw (filepathJoin dir "tenant_pre-data.sql"),
        by simp, h6⟩, ?_, fun _ => ⟨by simp, by simp, by simp⟩⟩
    intro x hx
    simp at hx
    rcases hx with rfl | rfl | rfl | rfl | rfl <;> assumption
  | true =>
  cases h7 : env (RStep.restoreSec dt.DBName (filepathJoin dir "tenant_pre-data.sql") "pre-data") with
  | false =>
    have hw : RestoreWorkflow env sm st dm dt dir =
        ([RStep.createDb dm.DBName, RStep.createDb dt.DBName,
          RStep.restoreSec dm.DBName (filepathJoin dir "moodys_pre-data.sql") "pre-data",
          RStep.restoreSec dm.DBName (filepathJoin dir "moodys_data.dump") "data",
          RStep.restoreSec dm.DBName (filepathJoin dir "moodys_post-data.dump") "post-data",
          RStep.rewriteFdw (filepathJoin dir "tenant_pre-data.sql"),
          RStep.restoreSec dt.DBName (filepathJoin dir "tenant_pre-data.sql") "pre-data"],
         some "failed to restore tenant pre-data") := by
      simp [RestoreWorkflow, moodysRestoreLoop, sectionsList, h1, h2, h3, h4, h5, h6, h7]
    rw [hw]
    refine ⟨⟨7, by simp [restoreFullOrder]⟩, by simp,
      fun _ => ⟨RStep.restoreSec dt.DBName (filepathJoin dir "tenant_pre-data.sql") "pre-data",
        by simp, h7⟩, ?_, fun _ => ⟨by simp, by simp, by simp⟩⟩
    intro x hx
    simp at hx
    rcases hx with rfl | rfl | rfl | rfl | rfl | rfl <;> assumption
  | true =>
  cases h8 : env (RStep.restoreSec dt.DBName (filepathJoin dir "tenant_data.dump") "data") with
  | false =>
    have hw : RestoreWorkflow env sm st dm dt dir =
        ([RStep.createDb dm.DBName, RStep.createDb dt.DBName,
          RStep.restoreSec dm.DBName (filepathJoin dir "moodys_pre-data.sql") "pre-data",
          RStep.restoreSec dm.DBName (filepathJoin dir "moodys_data.dump") "data",
          RStep.restoreSec dm.DBName (filepathJoin dir "moodys_post-data.dump") "post-data",
          RStep.rewriteFdw (filepathJoin dir "tenant_pre-data.sql"),
          RStep.restoreSec dt.DBName (filepathJoin dir "tenant_pre-data.sql") "pre-data",
          RStep.restoreSec dt.DBName (filepathJoin dir "tenant_data.dump") "data"],
         some "failed to restore tenant data") := by
      simp [RestoreWorkflow, moodysRestoreLoop, tenantRestoreLoop, sectionsList,
        h1, h2, h3, h4, h5, h6, h7, h8]
    rw [hw]
    refine ⟨⟨8, by simp [restoreFullOrder]⟩, by simp,
      fun _ => ⟨RStep.restoreSec dt.DBName (filepathJoin dir "tenant_data.dump") "data",
        by simp, h8⟩, ?_, fun _ => ⟨by simp, by simp, by simp⟩⟩
    intro x hx
    simp at hx
    rcases hx with rfl | rfl | rfl | rfl | rfl | rfl | rfl <;> assumption
  | true =>
  cases h9 : env (RStep.restoreSec dt.DBName (filepathJoin dir "tenant_post-data.dump") "post-data") with
  | false =>
    have hw : RestoreWorkflow env sm st dm dt dir =
        (restoreFullOrder dm dt dir, some "failed to restore tenant post-data") := by
      simp [RestoreWorkflow, moodysRestoreLoop, tenantRestoreLoop, sectionsList,
        restoreFullOrder, h1, h2, h3, h4, h5, h6, h7, h8, h9]
    rw [hw]
    refine ⟨⟨9, by simp [restoreFullOrder]⟩, by simp,
      fun _ => ⟨RStep.restoreSec dt.DBName (filepathJoin dir "tenant_post-data.dump") "post-data",
        by simp [restoreFullOrder], h9⟩, ?_,
      fun _ => ⟨by simp [restoreFullOrder], by simp [restoreFullOrder], by simp [restoreFullOrder]⟩⟩
    intro x hx
    simp [restoreFullOrder] at hx
    rcases hx with rfl | rfl | rfl | rfl | rfl | rfl | rfl | rfl <;> assumption
  | true =>
    have hw : RestoreWorkflow env sm st dm dt dir = (restoreFullOrder dm dt dir, none) := by
      simp [RestoreWorkflow, moodysRestoreLoop, tenantRestoreLoop, sectionsList,
        restoreFullOrder, h1, h2, h3, h4, h5, h6, h7, h8, h9]
    rw [hw]
    refine ⟨⟨9, by simp [restoreFullOrder]⟩, fun _ => ⟨rfl, ?_⟩,
      fun hc => absurd rfl hc, ?_,
      fun _ => ⟨by simp [restoreFullOrder], by simp [restoreFullOrder], by simp [restoreFullOrder]⟩⟩
    · intro x hx
      simp [restoreFullOrder] at hx
      rcases hx with rfl | rfl | rfl | rfl | rfl | rfl | rfl | rfl | rfl <;> assumption
    · intro x hx
      simp [restoreFullOrder] at hx
      rcases hx with rfl | rfl | rfl | rfl | rfl | rfl | rfl | rfl <;> assumption

/-- Destination tenant descriptor, as in the test file. -/
def tenantDestSample : DBConfig :=
  { Host := "localhost", Port := "5432", User := "postgres",
    Password := "your_new_password", DBName := "tenant_restore_test" }

/-- Witness for C1: a fully successful concrete run executes exactly the
nine steps of the fixed order. -/
theorem restoreWorkflow_step_order_witness :
    (RestoreWorkflow (fun _ => true) cfgSrcSample cfgSrcSample
        cfgDestSample tenantDestSample "dump_test").2 = none ∧
    (RestoreWorkflow (fun _ => true) cfgSrcSample cfgSrcSample
        cfgDestSample tenantDestSample "dump_test").1 =
      restoreFullOrder cfgDestSample tenantDestSample "dump_test" :=
  ⟨rfl, ((restoreWorkflow_step_order (fun _ => true) cfgSrcSample cfgSrcSample
      cfgDestSample tenantDestSample "dump_test").2.1 rfl).1⟩

/-- Witness for C2 at a concrete directory and descriptors: the six
artifact names written by the dump run. -/
theorem artifact_naming_roundtrip_witness :
    dumpWrittenPaths (DumpWorkflow (fun _ => true) cfgSrcSample tenantDestSample "dump_test").1 =
      List.map (filepathJoin "dump_test")
        ["moodys_pre-data.sql", "moodys_data.dump", "moodys_post-data.dump",
         "tenant_pre-data.sql", "tenant_data.dump", "tenant_post-data.dump"] :=
  (artifact_naming_roundtrip cfgSrcSample tenantDestSample cfgSrcSample cfgSrcSample
    cfgDestSample tenantDestSample "dump_test").1

/-- Witness for C3: on a host with 8 available processing units the code
still reports 1 worker. -/
theorem restore_worker_count_hardcoded_one_witness :
    getNumCPUs 8 = 1 ∧ getNumCPUs 8 ≠ 8 :=
  ⟨(restore_worker_count_hardcoded_one.1 8 cfgSrcSample "dump_test/moodys_data.dump").1,
   restore_worker_count_hardcoded_one.2⟩

/-- Witness for the amended C9 at concrete inputs: the probe runs for the
data section and the returned value is the retried restore's result. -/
theorem restore_result_independent_of_probe_witness :
    (restoreDatabaseSection cfgDestSample "dump_test/tenant_data.dump" "data"
        (fun _ => none) (.ok "100000")).probeRan = decide (("data" : String) = "data") ∧
    (restoreDatabaseSection cfgDestSample "dump_test/tenant_data.dump" "data"
        (fun _ => none) (.ok "100000")).result =
      (RetryWithBackoff ("restore " ++ "dump_test/tenant_data.dump") 3 (fun _ => none)).res :=
  ⟨(restore_result_independent_of_probe cfgDestSample "dump_test/tenant_data.dump" "data"
      (fun _ => none) (.ok "100000") (.ok "100000")).2.2.1,
   (restore_result_independent_of_probe cfgDestSample "dump_test/tenant_data.dump" "data"
      (fun _ => none) (.ok "100000") (.ok "100000")).1⟩
